import Mathlib

/-!
# LinkSqueezer — shallow embedding and verification

A shallow embedding of the LinkSqueezer URL-shortening service
(`src/server.js`, with the unauthenticated variant in
`src/unnamed/part_000`). The SQLite tables become lists of rows, each
Express handler becomes a Lean function over an explicit database state,
and the randomness of `nanoid` is modelled by passing the generated
identifiers (or a seed) as explicit arguments. SQLite enforces the
declared PRIMARY KEY and UNIQUE constraints on INSERT; foreign keys are
not enforced because the code never issues `PRAGMA foreign_keys = ON`.
Calendar dates (`DATE(created_at)`) are modelled as natural numbers
(days, larger = more recent).
-/

namespace LinkSqueezer

/-- JS truthiness for an optional string field of a JSON body:
`undefined`/`null` and the empty string are falsy. -/
def jsFalsy : Option String → Bool
  | none => true
  | some s => s == ""

/-- The URL-safe 64-symbol alphabet used by `nanoid`. -/
def urlAlphabet : List Char :=
  "ABCDEFGHIJKLMNOPQRSTUVWXYZabcdefghijklmnopqrstuvwxyz0123456789_-".toList

/-- Characters of a generated identifier: `len` symbols drawn from the
URL-safe alphabet, driven by a seed standing in for the entropy source. -/
def nanoidChars : Nat → Nat → List Char
  | 0, _ => []
  | n + 1, seed => urlAlphabet.getD (seed % 64) 'A' :: nanoidChars n (seed / 64)

/-- Model of `nanoid(len)`: a randomly generated `len`-character
identifier over the URL-safe alphabet; the seed models the randomness. -/
def nanoid (len seed : Nat) : String := ⟨nanoidChars len seed⟩

/-! ## Data model: the three tables -/

/-- A row of the `users` table. -/
structure UserRow where
  id : String
  email : String
  password_hash : String
  deriving Repr, DecidableEq

/-- A row of the `links` table. `created_at` is a timestamp (larger =
more recent); `is_active` defaults to `1` (true) at insertion. -/
structure LinkRow where
  id : String
  user_id : String
  original_url : String
  short_code : String
  title : Option String
  is_active : Bool
  created_at : Nat
  deriving Repr, DecidableEq

/-- A row of the `clicks` table. `day` is `DATE(created_at)`: the
calendar date of the click, as a number of days. `country` is never
populated by the code. -/
structure ClickRow where
  id : String
  link_id : String
  user_agent : Option String
  referer : Option String
  day : Nat
  deriving Repr, DecidableEq

/-- The whole database state. -/
structure DB where
  users : List UserRow
  links : List LinkRow
  clicks : List ClickRow
  deriving Repr, DecidableEq

/-! ## JSON values and HTTP replies -/

/-- A JSON value, as serialized by `res.json`. -/
inductive Json where
  | str (s : String)
  | num (n : Int)
  | bool (b : Bool)
  | null
  | arr (xs : List Json)
  | obj (fields : List (String × Json))
  deriving Repr

/-- An HTTP reply: a JSON body with a status code, or a redirect.
`res.json(x)` with no preceding `res.status` is status 200. -/
inductive HttpReply where
  | json (status : Nat) (body : Json)
  | redirect (url : String)
  deriving Repr

/-- `{success: true, data: ...}` — the claimed shape of success bodies. -/
def isSuccessWrapper : Json → Bool
  | .obj [("success", .bool true), ("data", _)] => true
  | _ => false

/-! ## JWT and bcrypt models -/

/-- The payload embedded in a session token: `{id, email}`. -/
structure TokenPayload where
  id : String
  email : String
  deriving Repr, DecidableEq

/-- A signed token, as produced by `jwt.sign(payload, secret,
{expiresIn: "7d"})`. The structure keeps the signed payload, the secret
and the expiry so that decoding is exact. -/
structure Token where
  payload : TokenPayload
  secret : String
  expiresDays : Nat
  deriving Repr, DecidableEq

def JWT_SECRET : String := "linksqueezer-secret-change-in-prod"

/-- `jwt.sign({id, email}, JWT_SECRET, {expiresIn: "7d"})`. -/
def jwtSign (p : TokenPayload) (secret : String) : Token :=
  ⟨p, secret, 7⟩

/-- Decoding a token recovers its `{id, email}` payload. -/
def jwtDecodePayload (t : Token) : TokenPayload := t.payload

/-- Serialization of a token into the JSON response (models the compact
JWT string; the exact string format is irrelevant to the claims). -/
def tokenToJson (t : Token) : Json :=
  .str (t.payload.id ++ "." ++ t.payload.email ++ "." ++ t.secret)

/-- Model of `bcrypt.hash(password, 10)`: an injective one-way-hash
stand-in (the claims only need `compare (p, hash p) = true`). -/
def bcryptHash (password : String) : String :=
  "bcrypt$10$" ++ password

/-- Model of `bcrypt.compare(password, hash)`. -/
def bcryptCompare (password hash : String) : Bool :=
  hash = bcryptHash password

/-! ## Auth middleware (`authenticateToken`, server.js:57-72) -/

/-- JS `String.prototype.split` with a one-character separator, on the
character list: every occurrence of the separator starts a new segment,
and the empty string splits to `[""]`. -/
def jsSplitChar (sep : Char) : List Char → List (List Char)
  | [] => [[]]
  | c :: rest =>
    let r := jsSplitChar sep rest
    if c = sep then [] :: r
    else
      match r with
      | [] => [[c]]
      | g :: gs => (c :: g) :: gs

/-- `header.split(' ')` as in the middleware. -/
def jsSplitSpace (s : String) : List String :=
  (jsSplitChar ' ' s.data).map (fun cs => ⟨cs⟩)

/-- Outcome of the `authenticateToken` middleware. -/
inductive AuthOutcome where
  | missingToken
  | invalidToken
  | authed (p : TokenPayload)
  deriving Repr, DecidableEq

/-- `authenticateToken`: takes `authHeader.split(' ')[1]` as the token
(`undefined` when the header is absent or has no second segment), returns
401 when the token is falsy, 403 when `jwt.verify` rejects it, and
otherwise attaches the decoded payload. `verify` models `jwt.verify`
with the server secret. -/
def authenticateToken (verify : String → Option TokenPayload)
    (authHeader : Option String) : AuthOutcome :=
  let token : Option String := authHeader.bind (fun h => (jsSplitSpace h).get? 1)
  match token with
  | none => .missingToken
  | some t =>
    if t = "" then .missingToken
    else
      match verify t with
      | none => .invalidToken
      | some p => .authed p

/-! ## Registration (`POST /api/auth/register`, server.js:82-112) -/

inductive RegisterResult where
  | missingFields
  | shortPassword
  | emailTaken
  | ok (id email : String) (token : Token)
  deriving Repr, DecidableEq

/-- `INSERT INTO users`: fails (UNIQUE constraint) when the primary-key
id or the unique email is already present; otherwise appends the row. -/
def insertUser (users : List UserRow) (u : UserRow) : Option (List UserRow) :=
  if users.any (fun x => x.id = u.id || x.email = u.email) then none
  else some (users ++ [u])

/-- The register handler: validates presence and password length, hashes
the password, inserts the user and signs a 7-day token over `{id, email}`.
A UNIQUE-constraint failure is caught and mapped to 400. -/
def register (db : DB) (email password : Option String) (newId : String) :
    RegisterResult × DB :=
  if jsFalsy email || jsFalsy password then (.missingFields, db)
  else if (password.getD "").length < 6 then (.shortPassword, db)
  else
    let e := email.getD ""
    let hash := bcryptHash (password.getD "")
    match insertUser db.users ⟨newId, e, hash⟩ with
    | none => (.emailTaken, db)
    | some users' =>
      (.ok newId e (jwtSign ⟨newId, e⟩ JWT_SECRET), { db with users := users' })

/-! ## Login (`POST /api/auth/login`, server.js:115-140) -/

inductive LoginResult where
  | missingFields
  | invalidCredentials
  | ok (id email : String) (token : Token)
  deriving Repr, DecidableEq

/-- The login handler: `SELECT * FROM users WHERE email = ?` (first
match), then `bcrypt.compare`; both failures answer 401. -/
def login (db : DB) (email password : Option String) : LoginResult :=
  if jsFalsy email || jsFalsy password then .missingFields
  else
    match db.users.find? (fun u => u.email = email.getD "") with
    | none => .invalidCredentials
    | some user =>
      if bcryptCompare (password.getD "") user.password_hash then
        .ok user.id user.email (jwtSign ⟨user.id, user.email⟩ JWT_SECRET)
      else .invalidCredentials

/-! ## Link creation (`POST /api/links`, server.js:143-173) -/

def PORT : Nat := 3000

inductive CreateLinkResult where
  | missingUrl
  | codeTaken
  | ok (id originalUrl shortCode shortUrl : String) (title : Option String)
  deriving Repr, DecidableEq

/-- `const shortCode = customCode || nanoid(6)`: the code of the caller when
truthy, else the generated identifier. -/
def chooseShortCode (customCode : Option String) (generated : String) : String :=
  if jsFalsy customCode then generated else customCode.getD ""

/-- `INSERT INTO links`: fails (UNIQUE constraint) when the primary-key
id or the unique short code is already present; otherwise appends. -/
def insertLink (links : List LinkRow) (l : LinkRow) : Option (List LinkRow) :=
  if links.any (fun x => x.id = l.id || x.short_code = l.short_code) then none
  else some (links ++ [l])

/-- The create-link handler. `generated` models `nanoid(6)`, `newId`
models `nanoid(10)`, `now` the insertion timestamp. The stored title is
`title || null`; the response echoes the raw `title`. A UNIQUE-constraint
failure is caught and mapped to 400. -/
def createLink (db : DB) (userId : String) (originalUrl title customCode : Option String)
    (generated newId : String) (now : Nat) : CreateLinkResult × DB :=
  if jsFalsy originalUrl then (.missingUrl, db)
  else
    let url := originalUrl.getD ""
    let shortCode := chooseShortCode customCode generated
    let storedTitle := if jsFalsy title then none else title
    match insertLink db.links ⟨newId, userId, url, shortCode, storedTitle, true, now⟩ with
    | none => (.codeTaken, db)
    | some links' =>
      (.ok newId url shortCode ("http://localhost:" ++ toString PORT ++ "/" ++ shortCode) title,
       { db with links := links' })

/-! ## Link listing (`GET /api/links`, server.js:176-180) -/

/-- Insert into a list sorted descending by `key`, keeping earlier
elements first among ties. -/
def insertDescBy (key : α → Nat) (a : α) : List α → List α
  | [] => [a]
  | x :: xs => if key x ≤ key a then a :: x :: xs else x :: insertDescBy key a xs

/-- `ORDER BY key DESC` (insertion sort; SQLite fixes no tie order). -/
def sortDescBy (key : α → Nat) (l : List α) : List α :=
  l.foldr (insertDescBy key) []

/-- `SELECT * FROM links WHERE user_id = ? ORDER BY created_at DESC`. -/
def listLinks (db : DB) (userId : String) : List LinkRow :=
  sortDescBy (fun l => l.created_at) (db.links.filter (fun l => l.user_id = userId))

/-! ## Redirect and click tracking (`GET /:shortCode`, server.js:183-200) -/

inductive RedirectOutcome where
  | notFound
  | thrown (msg : String)
  | redirected (url : String)
  deriving Repr, DecidableEq

/-- `INSERT INTO clicks`: fails (PRIMARY KEY constraint) when the click
id is already present; otherwise appends. -/
def insertClick (clicks : List ClickRow) (c : ClickRow) : Option (List ClickRow) :=
  if clicks.any (fun x => x.id = c.id) then none
  else some (clicks ++ [c])

/-- The redirect handler: `SELECT * FROM links WHERE short_code = ? AND
is_active = 1`, 404 when none, then a synchronous click INSERT with no
try/catch — a failing INSERT throws before `res.redirect`, so Express
answers 500 and no redirect is issued (`thrown`) — then the redirect.
`clickId` models `nanoid(10)`; `today` is the calendar date of the click. -/
def resolveAndRedirect (db : DB) (shortCode clickId : String)
    (userAgent referer : Option String) (today : Nat) : RedirectOutcome × DB :=
  match db.links.find? (fun l => l.short_code = shortCode && l.is_active) with
  | none => (.notFound, db)
  | some link =>
    let ua := if jsFalsy userAgent then none else userAgent
    let ref := if jsFalsy referer then none else referer
    match insertClick db.clicks ⟨clickId, link.id, ua, ref, today⟩ with
    | none => (.thrown "UNIQUE constraint failed: clicks.id", db)
    | some clicks' => (.redirected link.original_url, { db with clicks := clicks' })

/-! ## Analytics (`GET /api/links/:id/analytics`, server.js:203-240) -/

/-- `WHERE link_id = ?` over the clicks table. -/
def clicksFor (db : DB) (linkId : String) : List ClickRow :=
  db.clicks.filter (fun c => c.link_id = linkId)

/-- The daily query: `GROUP BY DATE(created_at)` (the distinct days,
each with its click count), `ORDER BY date DESC`, `LIMIT 7`. -/
def dailyRows (cs : List ClickRow) : List (Nat × Nat) :=
  ((sortDescBy (fun d => d) ((cs.map (fun c => c.day)).dedup)).take 7).map
    (fun d => (d, (cs.filter (fun c => c.day = d)).length))

inductive AnalyticsResult where
  | notFound
  | ok (link : LinkRow) (total_clicks active_days : Nat) (daily : List (Nat × Nat))
  deriving Repr, DecidableEq

/-- The analytics handler: `SELECT * FROM links WHERE id = ?` (no
`is_active` filter), 404 when none; otherwise `COUNT(*)`,
`COUNT(DISTINCT DATE(created_at))` and the daily rows. -/
def getAnalytics (db : DB) (id : String) : AnalyticsResult :=
  match db.links.find? (fun l => l.id = id) with
  | none => .notFound
  | some link =>
    let cs := clicksFor db id
    .ok link cs.length ((cs.map (fun c => c.day)).dedup).length (dailyRows cs)

/-! ## JSON serialization of the replies

Every `res.status(...).json(...)` / `res.json(...)` /
`res.redirect(...)` calls, per result. SQL dates and timestamps appear
as numbers here because the embedding models them as `Nat`. -/

def errorBody (msg : String) : Json := .obj [("error", .str msg)]

def optStrJson : Option String → Json
  | none => .null
  | some s => .str s

/-- A `links` row as serialized into a JSON response (`SELECT *`). -/
def linkToJson (l : LinkRow) : List (String × Json) :=
  [("id", .str l.id), ("user_id", .str l.user_id),
   ("original_url", .str l.original_url), ("short_code", .str l.short_code),
   ("title", optStrJson l.title),
   ("is_active", .num (if l.is_active then 1 else 0)),
   ("created_at", .num l.created_at)]

/-- `GET /api/health`: `res.json({status: "ok", timestamp})`. -/
def healthReply (timestamp : String) : HttpReply :=
  .json 200 (.obj [("status", .str "ok"), ("timestamp", .str timestamp)])

def registerReply : RegisterResult → HttpReply
  | .missingFields => .json 400 (errorBody "Email and password are required")
  | .shortPassword => .json 400 (errorBody "Password must be at least 6 characters")
  | .emailTaken => .json 400 (errorBody "Email already registered")
  | .ok id email tok => .json 200 (.obj [("success", .bool true),
      ("data", .obj [("user", .obj [("id", .str id), ("email", .str email)]),
                     ("token", tokenToJson tok)])])

def loginReply : LoginResult → HttpReply
  | .missingFields => .json 400 (errorBody "Email and password are required")
  | .invalidCredentials => .json 401 (errorBody "Invalid credentials")
  | .ok id email tok => .json 200 (.obj [("success", .bool true),
      ("data", .obj [("user", .obj [("id", .str id), ("email", .str email)]),
                     ("token", tokenToJson tok)])])

def createLinkReply : CreateLinkResult → HttpReply
  | .missingUrl => .json 400 (errorBody "originalUrl is required")
  | .codeTaken => .json 400 (errorBody "Short code already exists")
  | .ok id url code shortUrl title => .json 200 (.obj [("success", .bool true),
      ("data", .obj [("id", .str id), ("originalUrl", .str url),
                     ("shortCode", .str code), ("shortUrl", .str shortUrl),
                     ("title", optStrJson title)])])

def listLinksReply (links : List LinkRow) : HttpReply :=
  .json 200 (.obj [("success", .bool true),
    ("data", .arr (links.map (fun l => .obj (linkToJson l))))])

def analyticsReply : AnalyticsResult → HttpReply
  | .notFound => .json 404 (errorBody "Link not found")
  | .ok link total days daily => .json 200 (.obj [("success", .bool true),
      ("data", .obj (linkToJson link ++
        [("stats", .obj [("total_clicks", .num total), ("active_days", .num days)]),
         ("daily", .arr (daily.map
            (fun p => .obj [("date", .num p.1), ("clicks", .num p.2)])))]))])

/-- Reply of the redirect route; an uncaught throw becomes the
default Express 500 error response. -/
def redirectReply : RedirectOutcome → HttpReply
  | .notFound => .json 404 (errorBody "Link not found")
  | .thrown msg => .json 500 (errorBody msg)
  | .redirected url => .redirect url

/-- A reply respects the claimed convention when every 200 JSON body it
carries is `{success: true, data: ...}`. -/
def replyWrapped : HttpReply → Bool
  | .json 200 body => isSuccessWrapper body
  | _ => true

/-- The HTTP status of a reply (`none` for a redirect). -/
def replyStatus : HttpReply → Option Nat
  | .json s _ => some s
  | .redirect _ => none

/-- The two 400 validation failures of the register handler. -/
def isValidationError : RegisterResult → Bool
  | .missingFields => true
  | .shortPassword => true
  | _ => false

/-! ## Sample data used by witnesses and counterexamples -/

def demoUser : UserRow := ⟨"u1", "a@x.com", bcryptHash "secret1"⟩

def demoLink : LinkRow := ⟨"l1", "u1", "https://example.com", "abc123", none, true, 5⟩

def inactiveLink : LinkRow := ⟨"l2", "u1", "https://old.example.com", "old123", none, false, 3⟩

def demoDB : DB := ⟨[demoUser], [demoLink, inactiveLink], [⟨"c1", "l1", none, none, 10⟩]⟩

/-! # Theorems -/

theorem length_nanoidChars (len seed : Nat) : (nanoidChars len seed).length = len := by
  induction len generalizing seed with
  | zero => rfl
  | succ n ih => simp [nanoidChars, ih]

theorem length_nanoid (len seed : Nat) : (nanoid len seed).length = len := by
  simpa [nanoid, String.length] using length_nanoidChars len seed

/-- Helper: when every link carrying the requested short code is
inactive (in particular when no link carries it), the redirect query
`SELECT ... AND is_active = 1` finds nothing, so the handler answers 404
without touching the clicks table. -/
theorem resolve_notFound_of_all_inactive
    (db : DB) (code clickId : String) (ua ref : Option String) (today : Nat)
    (h : ∀ l ∈ db.links, l.short_code = code → l.is_active = false) :
    resolveAndRedirect db code clickId ua ref today = (.notFound, db) := by
  have hfind : db.links.find? (fun l => l.short_code = code && l.is_active) = none := by
    rw [List.find?_eq_none]
    intro l hl
    simp only [Bool.and_eq_true, decide_eq_true_eq, not_and]
    intro hc
    simp [h l hl hc]
  simp [resolveAndRedirect, hfind]

/-- C1: the claim says a failing click INSERT never blocks the redirect.
The code performs the INSERT synchronously with no try/catch before
`res.redirect`, so at this concrete input — an active link `abc123` and
a click id `c1` that collides with the primary key of an existing click
row —
the INSERT throws, Express answers 500, the clicks table is unchanged,
and no redirect is issued. This contradicts the comment in the code
itself (Track click, async, do not wait) and the stated intent of the
spec, so the code, not the claim, is at fault. -/
theorem C1_click_insert_failure_blocks_redirect :
    resolveAndRedirect demoDB "abc123" "c1" none none 10 =
      (.thrown "UNIQUE constraint failed: clicks.id", demoDB) ∧
    ∀ url, (resolveAndRedirect demoDB "abc123" "c1" none none 10).1 ≠
      .redirected url := by
  refine ⟨by decide, fun url h => ?_⟩
  rw [show (resolveAndRedirect demoDB "abc123" "c1" none none 10).1 =
    .thrown "UNIQUE constraint failed: clicks.id" from by decide] at h
  exact RedirectOutcome.noConfusion h

/-- C3 (counterexample): the claim says every success JSON body,
including that of `GET /api/health`, has the shape
`{success: true, data: ...}`.
The health handler answers `res.json({status: "ok", timestamp})` with
status 200, and that body is not success-wrapped. -/
theorem C3_health_not_wrapped :
    healthReply "2026-02-06T00:00:00.000Z" =
      .json 200 (.obj [("status", .str "ok"),
                       ("timestamp", .str "2026-02-06T00:00:00.000Z")]) ∧
    isSuccessWrapper (.obj [("status", .str "ok"),
                       ("timestamp", .str "2026-02-06T00:00:00.000Z")]) = false ∧
    replyWrapped (healthReply "2026-02-06T00:00:00.000Z") = false :=
  ⟨rfl, rfl, rfl⟩

/-- C3 (amended): every success (status-200) JSON response body of every
route other than `GET /api/health` is `{success: true, data: ...}`;
the 200 body of the health route is the unwrapped `{status, timestamp}`. -/
theorem C3_success_wrapped_except_health :
    (∀ r, replyWrapped (registerReply r) = true) ∧
    (∀ r, replyWrapped (loginReply r) = true) ∧
    (∀ r, replyWrapped (createLinkReply r) = true) ∧
    (∀ links, replyWrapped (listLinksReply links) = true) ∧
    (∀ r, replyWrapped (analyticsReply r) = true) ∧
    (∀ r, replyWrapped (redirectReply r) = true) ∧
    (∀ ts, replyWrapped (healthReply ts) = false) := by
  refine ⟨fun r => ?_, fun r => ?_, fun r => ?_, fun links => rfl,
    fun r => ?_, fun r => ?_, fun ts => rfl⟩ <;> cases r <;> rfl

/-- C6: a request to `GET /:shortCode` whose code matches no link, or
only links whose `is_active` flag is false, is answered 404 and the
database — in particular the clicks table — is unchanged. -/
theorem C6_inactive_or_missing_is_404_without_click
    (db : DB) (code clickId : String) (ua ref : Option String) (today : Nat)
    (h : ∀ l ∈ db.links, l.short_code = code → l.is_active = false) :
    resolveAndRedirect db code clickId ua ref today = (.notFound, db) :=
  resolve_notFound_of_all_inactive db code clickId ua ref today h

/-- C6 witness: the `old123` link of the sample database is inactive, so
visiting it yields 404 and leaves the database unchanged. -/
theorem C6_witness :
    resolveAndRedirect demoDB "old123" "c9" none none 11 = (.notFound, demoDB) :=
  C6_inactive_or_missing_is_404_without_click demoDB "old123" "c9" none none 11
    (by decide)

/-- C10: a `customCode` supplied as the empty string is falsy in
`customCode || nanoid(6)`, so creation behaves exactly as with an absent
`customCode`: the stored short code is the freshly generated 6-character
identifier, not the empty string. -/
theorem C10_empty_custom_code_treated_as_absent
    (db : DB) (userId : String) (originalUrl title : Option String)
    (newId : String) (now seed : Nat) :
    createLink db userId originalUrl title (some "") (nanoid 6 seed) newId now =
      createLink db userId originalUrl title none (nanoid 6 seed) newId now ∧
    chooseShortCode (some "") (nanoid 6 seed) = nanoid 6 seed ∧
    (nanoid 6 seed).length = 6 :=
  ⟨rfl, rfl, length_nanoid 6 seed⟩

/-! ## Splitting lemmas for the auth middleware -/

theorem jsSplitChar_of_not_mem {sep : Char} {l : List Char} (h : sep ∉ l) :
    jsSplitChar sep l = [l] := by
  induction l with
  | nil => rfl
  | cons c rest ih =>
    have hc : ¬ c = sep := fun e => h (e ▸ List.mem_cons_self c rest)
    have hrest : sep ∉ rest := fun m => h (List.mem_cons_of_mem _ m)
    simp [jsSplitChar, hc, ih hrest]

theorem jsSplitChar_append {sep : Char} {pre rest : List Char} (h : sep ∉ pre) :
    jsSplitChar sep (pre ++ sep :: rest) = pre :: jsSplitChar sep rest := by
  induction pre with
  | nil => simp [jsSplitChar]
  | cons c p ih =>
    have hc : ¬ c = sep := fun e => h (by simp [e])
    have hp : sep ∉ p := fun m => h (by simp [m])
    simp [jsSplitChar, hc, ih hp]

/-- C9 (counterexample): the claim says the token is the whole substring
after the first space, so the header `Bearer a b` with `a b` a valid
token should authenticate. The middleware instead takes `split(' ')[1]`,
the segment between the first two spaces — here `a` — and answers 403. -/
theorem C9_counterexample_multiword_token :
    ((fun t => if t = "a b" then some (⟨"u1", "a@x.com"⟩ : TokenPayload) else none)
        "a b" = some ⟨"u1", "a@x.com"⟩) ∧
    authenticateToken
      (fun t => if t = "a b" then some ⟨"u1", "a@x.com"⟩ else none)
      (some "Bearer a b") = .invalidToken :=
  ⟨rfl, rfl⟩

/-- C9 (amended): the middleware never validates the scheme word — the
token is `split(' ')[1]`, the segment between the first and second space
of the header. Hence any space-free prefix followed by a space and a
space-free valid token authenticates regardless of the scheme, and a
header containing no space is rejected 401 even if the header itself is
a valid token. -/
theorem C9_scheme_never_validated
    (verify : String → Option TokenPayload) (p : TokenPayload)
    (pre t : List Char) (hpre : ' ' ∉ pre) (ht : ' ' ∉ t) (hne : t ≠ [])
    (hv : verify ⟨t⟩ = some p) :
    authenticateToken verify (some ⟨pre ++ ' ' :: t⟩) = .authed p ∧
    ∀ h : List Char, ' ' ∉ h →
      authenticateToken verify (some ⟨h⟩) = .missingToken := by
  constructor
  · have hsplit : jsSplitChar ' ' (pre ++ ' ' :: t) = pre :: [t] := by
      rw [jsSplitChar_append hpre, jsSplitChar_of_not_mem ht]
    have htne : (⟨t⟩ : String) ≠ "" := fun e => hne (congrArg String.data e)
    unfold authenticateToken
    simp [jsSplitSpace, hsplit, htne, hv]
  · intro h hh
    unfold authenticateToken
    simp [jsSplitSpace, jsSplitChar_of_not_mem hh]

/-- C9 witness: with a verifier accepting exactly `tok`, the header
`Bearer tok` authenticates, while the bare header `tok` is rejected 401. -/
theorem C9_scheme_never_validated_witness :
    authenticateToken
      (fun s => if s = "tok" then some (⟨"u1", "a@x.com"⟩ : TokenPayload) else none)
      (some ⟨"Bearer".data ++ ' ' :: "tok".data⟩) = .authed ⟨"u1", "a@x.com"⟩ ∧
    authenticateToken
      (fun s => if s = "tok" then some (⟨"u1", "a@x.com"⟩ : TokenPayload) else none)
      (some ⟨"tok".data⟩) = .missingToken :=
  ⟨(C9_scheme_never_validated _ _ "Bearer".data "tok".data
      (by decide) (by decide) (by decide) rfl).1,
   (C9_scheme_never_validated _ ⟨"u1", "a@x.com"⟩ "Bearer".data "tok".data
      (by decide) (by decide) (by decide) rfl).2 "tok".data (by decide)⟩

/-- C4: in `createLink`, (a) a supplied non-empty custom code becomes
the stored short code, (b) an absent custom code yields the generated
identifier, which `nanoid(6)` makes 6 characters long, (c) when the
chosen code (or the new primary key) collides with an existing link the
call answers 400 and inserts no row, and (d) otherwise the link is
inserted and the response carries the created link together with the
fully-qualified short URL, which is a host prefix followed by the short
code. -/
theorem C4_create_link_code_conflict_and_url
    (db : DB) (userId url : String) (title customCode : Option String)
    (generated newId : String) (now seed : Nat) (hurl : url ≠ "") :
    (∀ c : String, c ≠ "" → chooseShortCode (some c) generated = c) ∧
    (chooseShortCode none generated = generated ∧ (nanoid 6 seed).length = 6) ∧
    ((∃ l ∈ db.links, l.short_code = chooseShortCode customCode generated) →
      createLink db userId (some url) title customCode generated newId now =
        (.codeTaken, db)) ∧
    ((∀ l ∈ db.links,
        l.short_code ≠ chooseShortCode customCode generated ∧ l.id ≠ newId) →
      createLink db userId (some url) title customCode generated newId now =
        (.ok newId url (chooseShortCode customCode generated)
          ("http://localhost:" ++ toString PORT ++ "/" ++
            chooseShortCode customCode generated) title,
         { db with links := db.links ++
            [⟨newId, userId, url, chooseShortCode customCode generated,
              (if jsFalsy title then none else title), true, now⟩] }) ∧
      ∃ hostPart, "http://localhost:" ++ toString PORT ++ "/" ++
          chooseShortCode customCode generated =
        hostPart ++ chooseShortCode customCode generated) := by
  have hfu : jsFalsy (some url) = false := by simp [jsFalsy, hurl]
  refine ⟨fun c hc => by simp [chooseShortCode, jsFalsy, hc],
    ⟨rfl, length_nanoid 6 seed⟩, ?_, ?_⟩
  · rintro ⟨l, hl, hcode⟩
    have hins : insertLink db.links
        ⟨newId, userId, url, chooseShortCode customCode generated,
         (if jsFalsy title then none else title), true, now⟩ = none := by
      unfold insertLink
      rw [if_pos (List.any_eq_true.mpr ⟨l, hl, by simp [hcode]⟩)]
    simp [createLink, hfu, hins]
  · intro h
    have hins : insertLink db.links
        ⟨newId, userId, url, chooseShortCode customCode generated,
         (if jsFalsy title then none else title), true, now⟩ =
        some (db.links ++
          [⟨newId, userId, url, chooseShortCode customCode generated,
            (if jsFalsy title then none else title), true, now⟩]) := by
      unfold insertLink
      rw [if_neg]
      simp only [List.any_eq_true, not_exists]
      intro l
      simp only [not_and]
      intro hl
      simp [(h l hl).1, (h l hl).2]
    refine ⟨by simp [createLink, hfu, hins], ?_⟩
    exact ⟨"http://localhost:" ++ toString PORT ++ "/",
      by rw [String.append_assoc, String.append_assoc]⟩

/-- C4 witness: with the sample database, a custom code equal to the
existing `abc123` is refused with no insertion, while the fresh custom
code `zzz` succeeds and yields `http://localhost:3000/zzz`. -/
theorem C4_create_link_witness :
    createLink demoDB "u1" (some "https://new.example.com") none (some "abc123")
        "g1m0de" "l3" 7 = (.codeTaken, demoDB) ∧
    createLink demoDB "u1" (some "https://new.example.com") none (some "zzz")
        "g1m0de" "l3" 7 =
      (.ok "l3" "https://new.example.com" "zzz" "http://localhost:3000/zzz"
        none,
       { demoDB with links := demoDB.links ++
          [⟨"l3", "u1", "https://new.example.com", "zzz", none, true, 7⟩] }) := by
  constructor
  · exact (C4_create_link_code_conflict_and_url demoDB "u1" "https://new.example.com"
      none (some "abc123") "g1m0de" "l3" 7 0 (by decide)).2.2.1
      ⟨demoLink, by decide, rfl⟩
  · exact ((C4_create_link_code_conflict_and_url demoDB "u1" "https://new.example.com"
      none (some "zzz") "g1m0de" "l3" 7 0 (by decide)).2.2.2
      (by decide)).1

/-- C5: `register` answers a 400 validation error and leaves the
database unchanged whenever email or password is missing or the password
is shorter than 6 characters; and an otherwise valid registration whose
email is already registered answers the 400 conflict and inserts no user
row. -/
theorem C5_register_validation_and_duplicate
    (db : DB) (email password : Option String) (newId e pw : String) :
    ((email = none ∨ password = none ∨ (password = some pw ∧ pw.length < 6)) →
      isValidationError (register db email password newId).1 = true ∧
      replyStatus (registerReply (register db email password newId).1) = some 400 ∧
      (register db email password newId).2 = db) ∧
    (email = some e → e ≠ "" → password = some pw → 6 ≤ pw.length →
      (∃ u ∈ db.users, u.email = e) →
      register db email password newId = (.emailTaken, db) ∧
      replyStatus (registerReply RegisterResult.emailTaken) = some 400) := by
  constructor
  · rintro (he | hp | ⟨hp, hlen⟩)
    · subst he
      exact ⟨rfl, rfl, rfl⟩
    · subst hp
      simp [register, jsFalsy, isValidationError, registerReply, replyStatus]
    · subst hp
      unfold register
      split
      · exact ⟨rfl, rfl, rfl⟩
      · rw [if_pos (by simpa using hlen)]
        exact ⟨rfl, rfl, rfl⟩
  · intro hem hene hpw hlen hdup
    obtain ⟨u, hu, hue⟩ := hdup
    subst hem
    subst hpw
    have h1 : jsFalsy (some e) = false := by simp [jsFalsy, hene]
    have h2 : jsFalsy (some pw) = false := by
      have hne : pw ≠ "" := by
        intro h
        subst h
        exact absurd hlen (by decide)
      simp [jsFalsy, hne]
    have hins : insertUser db.users ⟨newId, e, bcryptHash pw⟩ = none := by
      unfold insertUser
      rw [if_pos (List.any_eq_true.mpr ⟨u, hu, by simp [hue]⟩)]
    refine ⟨?_, rfl⟩
    simp [register, h1, h2, hins, hlen]

/-- C5 witness: registering with the already-taken `a@x.com` and a valid
password answers the conflict with the database unchanged; a 3-character
password is a 400 validation error. -/
theorem C5_register_witness :
    (isValidationError (register demoDB (some "b@x.com") (some "abc") "u2").1 = true ∧
     (register demoDB (some "b@x.com") (some "abc") "u2").2 = demoDB) ∧
    register demoDB (some "a@x.com") (some "secret2") "u2" = (.emailTaken, demoDB) := by
  refine ⟨?_, ?_⟩
  · have h := (C5_register_validation_and_duplicate demoDB (some "b@x.com")
      (some "abc") "u2" "b@x.com" "abc").1 (Or.inr (Or.inr ⟨rfl, by decide⟩))
    exact ⟨h.1, h.2.2⟩
  · exact ((C5_register_validation_and_duplicate demoDB (some "a@x.com")
      (some "secret2") "u2" "a@x.com" "secret2").2 rfl (by decide) rfl (by decide)
      ⟨demoUser, by decide, rfl⟩).1

/-- C7: registering a previously unused email with a valid password
succeeds and yields the token over `{newId, e}`; logging in on the
resulting database with the same credentials succeeds and returns a
token decoding to the same `{id, email}` pair. -/
theorem C7_register_login_roundtrip
    (db : DB) (e pw newId : String)
    (he : e ≠ "") (hpw : 6 ≤ pw.length)
    (hfresh : ∀ u ∈ db.users, u.email ≠ e)
    (hid : ∀ u ∈ db.users, u.id ≠ newId) :
    register db (some e) (some pw) newId =
      (.ok newId e (jwtSign ⟨newId, e⟩ JWT_SECRET),
       { db with users := db.users ++ [⟨newId, e, bcryptHash pw⟩] }) ∧
    login { db with users := db.users ++ [⟨newId, e, bcryptHash pw⟩] }
        (some e) (some pw) =
      .ok newId e (jwtSign ⟨newId, e⟩ JWT_SECRET) ∧
    jwtDecodePayload (jwtSign ⟨newId, e⟩ JWT_SECRET) = ⟨newId, e⟩ := by
  have hne_pw : pw ≠ "" := by
    intro h
    subst h
    exact absurd hpw (by decide)
  have h1 : jsFalsy (some e) = false := by simp [jsFalsy, he]
  have h2 : jsFalsy (some pw) = false := by simp [jsFalsy, hne_pw]
  refine ⟨?_, ?_, rfl⟩
  · have hins : insertUser db.users ⟨newId, e, bcryptHash pw⟩ =
        some (db.users ++ [⟨newId, e, bcryptHash pw⟩]) := by
      unfold insertUser
      rw [if_neg]
      simp only [List.any_eq_true, not_exists]
      intro u
      simp only [not_and]
      intro hu
      simp [hid u hu, hfresh u hu]
    simp [register, h1, h2, hins, hpw]
  · have hnone : db.users.find? (fun u => u.email = e) = none :=
      List.find?_eq_none.mpr (fun u hu => by simp [hfresh u hu])
    simp [login, h1, h2, hnone, bcryptCompare]

/-- C7 witness: on the empty database, registering `a@x.com`/`secret1`
and then logging in round-trips the identity `{u1, a@x.com}`. -/
theorem C7_register_login_roundtrip_witness :
    register (⟨[], [], []⟩ : DB) (some "a@x.com") (some "secret1") "u1" =
      (.ok "u1" "a@x.com" (jwtSign ⟨"u1", "a@x.com"⟩ JWT_SECRET),
       ⟨[⟨"u1", "a@x.com", bcryptHash "secret1"⟩], [], []⟩) ∧
    login (⟨[⟨"u1", "a@x.com", bcryptHash "secret1"⟩], [], []⟩ : DB)
        (some "a@x.com") (some "secret1") =
      .ok "u1" "a@x.com" (jwtSign ⟨"u1", "a@x.com"⟩ JWT_SECRET) ∧
    jwtDecodePayload (jwtSign ⟨"u1", "a@x.com"⟩ JWT_SECRET) = ⟨"u1", "a@x.com"⟩ :=
  C7_register_login_roundtrip ⟨[], [], []⟩ "a@x.com" "secret1" "u1"
    (by decide) (by decide) (fun u hu => by simp at hu) (fun u hu => by simp at hu)

/-- C8: `getAnalytics` looks the link up without any `is_active` filter,
so an inactive link still gets its full analytics answer, while the
redirect route for the short code of the same link answers 404. -/
theorem C8_analytics_ignores_is_active
    (db : DB) (link : LinkRow) (clickId : String) (ua ref : Option String)
    (today : Nat)
    (hfind : db.links.find? (fun l => l.id = link.id) = some link)
    (_hinactive : link.is_active = false)
    (hcode : ∀ l ∈ db.links, l.short_code = link.short_code → l.is_active = false) :
    getAnalytics db link.id =
      .ok link (clicksFor db link.id).length
        ((clicksFor db link.id).map (fun c => c.day)).dedup.length
        (dailyRows (clicksFor db link.id)) ∧
    replyStatus (analyticsReply (getAnalytics db link.id)) = some 200 ∧
    resolveAndRedirect db link.short_code clickId ua ref today = (.notFound, db) := by
  have hok : getAnalytics db link.id =
      .ok link (clicksFor db link.id).length
        ((clicksFor db link.id).map (fun c => c.day)).dedup.length
        (dailyRows (clicksFor db link.id)) := by
    simp [getAnalytics, hfind]
  exact ⟨hok, by rw [hok]; rfl,
    resolve_notFound_of_all_inactive db link.short_code clickId ua ref today hcode⟩

/-- C8 witness: the inactive sample link `l2` still answers analytics
with status 200, while visiting its short code `old123` yields 404. -/
theorem C8_analytics_ignores_is_active_witness :
    getAnalytics demoDB inactiveLink.id =
      .ok inactiveLink (clicksFor demoDB inactiveLink.id).length
        ((clicksFor demoDB inactiveLink.id).map (fun c => c.day)).dedup.length
        (dailyRows (clicksFor demoDB inactiveLink.id)) ∧
    replyStatus (analyticsReply (getAnalytics demoDB inactiveLink.id)) = some 200 ∧
    resolveAndRedirect demoDB inactiveLink.short_code "c9" none none 11 =
      (.notFound, demoDB) :=
  C8_analytics_ignores_is_active demoDB inactiveLink "c9" none none 11
    (by decide) rfl (by decide)

/-! ## Sorting lemmas for the daily aggregate -/

theorem insertDescBy_perm {α : Type} (key : α → Nat) (a : α) (l : List α) :
    List.Perm (insertDescBy key a l) (a :: l) := by
  induction l with
  | nil => exact List.Perm.refl _
  | cons x xs ih =>
    unfold insertDescBy
    split
    · exact List.Perm.refl _
    · exact (ih.cons x).trans (List.Perm.swap a x xs)

theorem sortDescBy_perm {α : Type} (key : α → Nat) (l : List α) :
    List.Perm (sortDescBy key l) l := by
  induction l with
  | nil => exact List.Perm.refl _
  | cons x xs ih =>
    exact (insertDescBy_perm key x (sortDescBy key xs)).trans (ih.cons x)

theorem insertDescBy_pairwise {α : Type} (key : α → Nat) (a : α) {l : List α}
    (h : l.Pairwise (fun x y => key y ≤ key x)) :
    (insertDescBy key a l).Pairwise (fun x y => key y ≤ key x) := by
  induction l with
  | nil => simp [insertDescBy]
  | cons x xs ih =>
    rw [List.pairwise_cons] at h
    unfold insertDescBy
    split
    · rename_i hxa
      rw [List.pairwise_cons]
      refine ⟨?_, List.pairwise_cons.mpr h⟩
      intro b hb
      rcases List.mem_cons.mp hb with rfl | hbxs
      · exact hxa
      · exact le_trans (h.1 b hbxs) hxa
    · rename_i hxa
      rw [List.pairwise_cons]
      refine ⟨?_, ih h.2⟩
      intro b hb
      rcases List.mem_cons.mp ((insertDescBy_perm key a xs).mem_iff.mp hb) with rfl | hbxs
      · exact le_of_not_le hxa
      · exact h.1 b hbxs

theorem sortDescBy_pairwise {α : Type} (key : α → Nat) (l : List α) :
    (sortDescBy key l).Pairwise (fun x y => key y ≤ key x) := by
  induction l with
  | nil => simp [sortDescBy]
  | cons x xs ih => exact insertDescBy_pairwise key x ih

/-- Helper: sorting the deduplicated day list yields a strictly
descending list. -/
theorem sortDescBy_dedup_strict (days : List Nat) :
    (sortDescBy (fun d => d) days.dedup).Pairwise (fun x y => y < x) := by
  have hsorted := sortDescBy_pairwise (fun d => d) days.dedup
  have hnodup : (sortDescBy (fun d => d) days.dedup).Nodup :=
    ((sortDescBy_perm (fun d => d) days.dedup).nodup_iff).mpr (List.nodup_dedup days)
  exact (hsorted.and hnodup).imp (fun hp => lt_of_le_of_ne hp.1 hp.2.symm)

/-- C2: for every identifier with a matching link, `getAnalytics`
returns the link together with the total click count over all time, the
number of distinct calendar dates with at least one click over all time,
and the per-day click counts of the most recent at most 7 distinct dates
that have clicks (each listed date has a click, carries its exact
per-day count, the list is ordered newest first, its length is
`min 7 (number of distinct dates)`, and every click date left out is
older than every listed date); for every identifier with no matching
link it answers 404. -/
theorem C2_analytics_aggregates (db : DB) (id : String) :
    (∀ link, db.links.find? (fun l => l.id = id) = some link →
      ∃ daily,
        getAnalytics db id =
          .ok link (clicksFor db id).length
            ((clicksFor db id).map (fun c => c.day)).toFinset.card daily ∧
        daily.length = min 7 ((clicksFor db id).map (fun c => c.day)).toFinset.card ∧
        daily.Pairwise (fun p q => q.1 < p.1) ∧
        (∀ p ∈ daily, (∃ c ∈ clicksFor db id, c.day = p.1) ∧
          p.2 = ((clicksFor db id).filter (fun c => c.day = p.1)).length) ∧
        (∀ c ∈ clicksFor db id, c.day ∉ daily.map Prod.fst →
          ∀ p ∈ daily, c.day < p.1)) ∧
    (db.links.find? (fun l => l.id = id) = none →
      getAnalytics db id = .notFound ∧
      replyStatus (analyticsReply (getAnalytics db id)) = some 404) := by
  constructor
  · intro link hfind
    have hcard : ((clicksFor db id).map (fun c => c.day)).toFinset.card =
        ((clicksFor db id).map (fun c => c.day)).dedup.length := List.card_toFinset _
    refine ⟨dailyRows (clicksFor db id), ?_, ?_, ?_, ?_, ?_⟩
    · rw [hcard]
      simp [getAnalytics, hfind]
    · rw [hcard]
      simp only [dailyRows, List.length_map, List.length_take]
      rw [(sortDescBy_perm (fun d => d) _).length_eq]
    · have htake := List.Pairwise.sublist
        (List.take_sublist 7 (sortDescBy (fun d => d)
          ((clicksFor db id).map (fun c => c.day)).dedup))
        (sortDescBy_dedup_strict ((clicksFor db id).map (fun c => c.day)))
      simp only [dailyRows]
      exact List.pairwise_map.mpr htake
    · intro p hp
      simp only [dailyRows, List.mem_map] at hp
      obtain ⟨d, hd, rfl⟩ := hp
      refine ⟨?_, rfl⟩
      have hdmem : d ∈ ((clicksFor db id).map (fun c => c.day)).dedup :=
        (sortDescBy_perm (fun d' => d') _).mem_iff.mp
          (List.take_subset 7 _ hd)
      obtain ⟨c, hc, hcd⟩ := List.mem_map.mp (List.mem_dedup.mp hdmem)
      exact ⟨c, hc, hcd⟩
    · intro c hc hnotin p hp
      simp only [dailyRows, List.mem_map] at hp
      obtain ⟨d, hd, rfl⟩ := hp
      have hmap : (dailyRows (clicksFor db id)).map Prod.fst =
          (sortDescBy (fun d' => d')
            ((clicksFor db id).map (fun c' => c'.day)).dedup).take 7 := by
        simp [dailyRows, List.map_map, Function.comp_def]
      rw [hmap] at hnotin
      have hcsort : c.day ∈ sortDescBy (fun d' => d')
          ((clicksFor db id).map (fun c' => c'.day)).dedup :=
        (sortDescBy_perm _ _).mem_iff.mpr
          (List.mem_dedup.mpr (List.mem_map.mpr ⟨c, hc, rfl⟩))
      have hpairwise := sortDescBy_dedup_strict
        ((clicksFor db id).map (fun c' => c'.day))
      rw [← List.take_append_drop 7 (sortDescBy (fun d' => d')
        ((clicksFor db id).map (fun c' => c'.day)).dedup)] at hpairwise hcsort
      have hdrop : c.day ∈ (sortDescBy (fun d' => d')
          ((clicksFor db id).map (fun c' => c'.day)).dedup).drop 7 := by
        rcases List.mem_append.mp hcsort with h | h
        · exact absurd h hnotin
        · exact h
      exact (List.pairwise_append.mp hpairwise).2.2 d hd c.day hdrop
  · intro hnone
    refine ⟨by simp [getAnalytics, hnone], ?_⟩
    simp [getAnalytics, hnone, analyticsReply, replyStatus]

/-- C2 witness: the link `l1` of the sample database has one click on
day 10,
so the analytics answer carries total 1, one active day and one daily
row; the identifier `missing` answers 404. -/
theorem C2_analytics_aggregates_witness :
    (∃ daily,
      getAnalytics demoDB "l1" =
        .ok demoLink (clicksFor demoDB "l1").length
          ((clicksFor demoDB "l1").map (fun c => c.day)).toFinset.card daily ∧
      daily.length = min 7 ((clicksFor demoDB "l1").map (fun c => c.day)).toFinset.card ∧
      daily.Pairwise (fun p q => q.1 < p.1) ∧
      (∀ p ∈ daily, (∃ c ∈ clicksFor demoDB "l1", c.day = p.1) ∧
        p.2 = ((clicksFor demoDB "l1").filter (fun c => c.day = p.1)).length) ∧
      (∀ c ∈ clicksFor demoDB "l1", c.day ∉ daily.map Prod.fst →
        ∀ p ∈ daily, c.day < p.1)) ∧
    (getAnalytics demoDB "missing" = .notFound ∧
     replyStatus (analyticsReply (getAnalytics demoDB "missing")) = some 404) :=
  ⟨(C2_analytics_aggregates demoDB "l1").1 demoLink (by decide),
   (C2_analytics_aggregates demoDB "missing").2 (by decide)⟩

end LinkSqueezer
